import Mathlib

/-!
Verification of the bitbanged I2C engine and OLED rendering pipeline of
ATtiny13-TinyOLEDdemo (src/software/main.c and
src/software/TinyOLEDdemo_t10_bignumbers/main.c).

The I2C engine is embedded at two levels:
 * `Prim` actions are the primitive line operations the C macros perform
   (`I2C_SDA_LOW()` is `DDRB |= 1<<PB0`, `I2C_SDA_HIGH()` is
   `DDRB &= ~(1<<PB0)`, likewise for SCL on PB2, plus the two register
   clears done by `I2C_init` and the `PINB` sample of `I2C_SDA_READ()`).
   Each engine function is embedded as the list of `Prim` actions it
   executes, in order; pure data manipulation (shifts, `nop`) performs no
   line action and therefore contributes nothing to the trace, so
   `I2C_write` of src/software/main.c and of
   src/software/TinyOLEDdemo_t10_bignumbers/main.c produce the same trace.
 * `applyPrim` gives the register semantics of each action on the
   `DDRB`/`PORTB` byte pair, exactly as the AVR macros do.

The OLED layer is embedded as lists of `Evt` (start condition, transmitted
byte, stop condition), mirroring the calls each OLED function makes into
the I2C engine.
-/

/-- Pin numbers: `I2C_SDA` is PB0 and `I2C_SCL` is PB2 in both sources. -/
def I2C_SDA : Nat := 0

/-- The `I2C_SCL` pin number (PB2). -/
def I2C_SCL : Nat := 2

/-- Primitive line-level actions of the bitbang engine, one per C macro or
register statement that touches the two I2C lines. `sdaRead` is the
`I2C_SDA_READ()` sample of `PINB`; it changes no register. -/
inductive Prim where
  | sdaLow
  | sdaHigh
  | sclLow
  | sclHigh
  | sdaRead
  | ddrbClearBoth
  | portbClearBoth
deriving DecidableEq, Repr

/-- The two AVR I/O registers the engine touches, each an 8-bit byte. -/
structure RegState where
  DDRB : Nat
  PORTB : Nat
deriving DecidableEq, Repr

/-- Register semantics of each primitive action. Masks: `1<<PB0 = 1`,
`1<<PB2 = 4`; clearing uses the 8-bit complements `254 = ~1`, `251 = ~4`
and `250 = ~(1|4)`. `sdaRead` reads `PINB` and writes nothing. -/
def applyPrim : Prim → RegState → RegState
  | .sdaLow, s => { s with DDRB := s.DDRB ||| 1 }
  | .sdaHigh, s => { s with DDRB := s.DDRB &&& 254 }
  | .sclLow, s => { s with DDRB := s.DDRB ||| 4 }
  | .sclHigh, s => { s with DDRB := s.DDRB &&& 251 }
  | .sdaRead, s => s
  | .ddrbClearBoth, s => { s with DDRB := s.DDRB &&& 250 }
  | .portbClearBoth, s => { s with PORTB := s.PORTB &&& 250 }

/-- Run a list of primitive actions from a register state. -/
def runPrims (ps : List Prim) (s : RegState) : RegState :=
  ps.foldl (fun t p => applyPrim p t) s

/-- All states visited while running a list of primitive actions,
including the initial state. -/
def statesOf (ps : List Prim) (s : RegState) : List RegState :=
  ps.scanl (fun t p => applyPrim p t) s

/-- Electrical level of an open-drain line: when the `DDRB` bit is set the
MCU drives the line to the `PORTB` bit, otherwise the line floats and the
external pull-up makes it HIGH (`true`). -/
def lineLevel (s : RegState) (pin : Nat) : Bool :=
  if s.DDRB.testBit pin then s.PORTB.testBit pin else true

/-- A line is actively driven HIGH when it is an output (`DDRB` bit set)
with a HIGH output value (`PORTB` bit set) — the one thing an open-drain
protocol must never do. -/
def drivesHighB (s : RegState) (pin : Nat) : Bool :=
  s.DDRB.testBit pin && s.PORTB.testBit pin

/-- The `I2C_init` (identical in both sources): clear the SDA and SCL bits of
`DDRB` (pins become inputs, lines released) and of `PORTB`. -/
def I2C_init : List Prim := [.ddrbClearBoth, .portbClearBoth]

/-- The `I2C_start` of src/software/main.c: SDA LOW first, SCL LOW second. -/
def I2C_start : List Prim := [.sdaLow, .sclLow]

/-- The `I2C_stop` (identical in both sources): SDA LOW, SCL HIGH, SDA HIGH. -/
def I2C_stop : List Prim := [.sdaLow, .sclHigh, .sdaHigh]

/-- The loop body of `I2C_write`, `for(i = 8; i; i--, data<<=1)`: each
iteration does `I2C_SDA_LOW()`, then `I2C_SDA_HIGH()` when `data & 0x80`
is set, then `I2C_SCL_HIGH()`, `I2C_SCL_LOW()`; `data` is a `uint8_t`, so
the shift truncates to 8 bits. -/
def writeBits : Nat → Nat → List Prim
  | 0, _ => []
  | i + 1, data =>
    [Prim.sdaLow]
      ++ (if data &&& 0x80 ≠ 0 then [Prim.sdaHigh] else [])
      ++ [Prim.sclHigh, Prim.sclLow]
      ++ writeBits i ((data <<< 1) % 256)

/-- The `I2C_write`: the 8-bit loop, then `I2C_SDA_HIGH()` releasing SDA for
the slave's ACK, and a 9th clock pulse whose ACK value is never sampled
(the trace contains no `sdaRead`) — there is no failure path. The
data-shift and `nop` differences between the two source variants are pure
delays and produce no line action, so both compile to this trace. -/
def I2C_write (data : Nat) : List Prim :=
  writeBits 8 data ++ [.sdaHigh, .sclHigh, .sclLow]

/-- The bit-receive loop of `I2C_read`: 8 times `I2C_SCL_HIGH()`, sample
`I2C_SDA_READ()`, `I2C_SCL_LOW()` (the shift of `data` is no line
action). -/
def readBits : Nat → List Prim
  | 0 => []
  | i + 1 => [Prim.sclHigh, Prim.sdaRead, Prim.sclLow] ++ readBits i

/-- The `I2C_read` of src/software/main.c, line actions only: release SDA,
receive 8 bits, pull SDA LOW when `ack` is nonzero, clock the ACK bit,
release SDA. -/
def I2C_read (ack : Bool) : List Prim :=
  [.sdaHigh] ++ readBits 8
    ++ (if ack then [Prim.sdaLow] else [])
    ++ [.sclHigh, .sclLow, .sdaHigh]

/-- The operations of the I2C engine. -/
inductive Op where
  | init
  | start
  | stop
  | write (b : Nat)
  | read (ack : Bool)
deriving DecidableEq, Repr

/-- The primitive trace of each engine operation. -/
def opPrims : Op → List Prim
  | .init => I2C_init
  | .start => I2C_start
  | .stop => I2C_stop
  | .write b => I2C_write b
  | .read ack => I2C_read ack

/-- The 5×8 ASCII font `OLED_font` of src/software/main.c: 64 glyphs of 5
column bytes each, covering character codes 32..95, 320 bytes total. -/
def OLED_font : List Nat := [
  0x00, 0x00, 0x00, 0x00, 0x00,
  0x00, 0x00, 0x2f, 0x00, 0x00,
  0x00, 0x07, 0x00, 0x07, 0x00,
  0x14, 0x7f, 0x14, 0x7f, 0x14,
  0x24, 0x2a, 0x7f, 0x2a, 0x12,
  0x62, 0x64, 0x08, 0x13, 0x23,
  0x36, 0x49, 0x55, 0x22, 0x50,
  0x00, 0x05, 0x03, 0x00, 0x00,
  0x00, 0x1c, 0x22, 0x41, 0x00,
  0x00, 0x41, 0x22, 0x1c, 0x00,
  0x14, 0x08, 0x3E, 0x08, 0x14,
  0x08, 0x08, 0x3E, 0x08, 0x08,
  0x00, 0x00, 0xA0, 0x60, 0x00,
  0x08, 0x08, 0x08, 0x08, 0x08,
  0x00, 0x60, 0x60, 0x00, 0x00,
  0x20, 0x10, 0x08, 0x04, 0x02,
  0x3E, 0x51, 0x49, 0x45, 0x3E,
  0x00, 0x42, 0x7F, 0x40, 0x00,
  0x42, 0x61, 0x51, 0x49, 0x46,
  0x21, 0x41, 0x45, 0x4B, 0x31,
  0x18, 0x14, 0x12, 0x7F, 0x10,
  0x27, 0x45, 0x45, 0x45, 0x39,
  0x3C, 0x4A, 0x49, 0x49, 0x30,
  0x01, 0x71, 0x09, 0x05, 0x03,
  0x36, 0x49, 0x49, 0x49, 0x36,
  0x06, 0x49, 0x49, 0x29, 0x1E,
  0x00, 0x36, 0x36, 0x00, 0x00,
  0x00, 0x56, 0x36, 0x00, 0x00,
  0x08, 0x14, 0x22, 0x41, 0x00,
  0x14, 0x14, 0x14, 0x14, 0x14,
  0x00, 0x41, 0x22, 0x14, 0x08,
  0x02, 0x01, 0x51, 0x09, 0x06,
  0x32, 0x49, 0x59, 0x51, 0x3E,
  0x7C, 0x12, 0x11, 0x12, 0x7C,
  0x7F, 0x49, 0x49, 0x49, 0x36,
  0x3E, 0x41, 0x41, 0x41, 0x22,
  0x7F, 0x41, 0x41, 0x22, 0x1C,
  0x7F, 0x49, 0x49, 0x49, 0x41,
  0x7F, 0x09, 0x09, 0x09, 0x01,
  0x3E, 0x41, 0x49, 0x49, 0x7A,
  0x7F, 0x08, 0x08, 0x08, 0x7F,
  0x00, 0x41, 0x7F, 0x41, 0x00,
  0x20, 0x40, 0x41, 0x3F, 0x01,
  0x7F, 0x08, 0x14, 0x22, 0x41,
  0x7F, 0x40, 0x40, 0x40, 0x40,
  0x7F, 0x02, 0x0C, 0x02, 0x7F,
  0x7F, 0x04, 0x08, 0x10, 0x7F,
  0x3E, 0x41, 0x41, 0x41, 0x3E,
  0x7F, 0x09, 0x09, 0x09, 0x06,
  0x3E, 0x41, 0x51, 0x21, 0x5E,
  0x7F, 0x09, 0x19, 0x29, 0x46,
  0x46, 0x49, 0x49, 0x49, 0x31,
  0x01, 0x01, 0x7F, 0x01, 0x01,
  0x3F, 0x40, 0x40, 0x40, 0x3F,
  0x1F, 0x20, 0x40, 0x20, 0x1F,
  0x3F, 0x40, 0x38, 0x40, 0x3F,
  0x63, 0x14, 0x08, 0x14, 0x63,
  0x07, 0x08, 0x70, 0x08, 0x07,
  0x61, 0x51, 0x49, 0x45, 0x43,
  0x00, 0x7F, 0x41, 0x41, 0x00,
  0x02, 0x04, 0x08, 0x10, 0x20,
  0x00, 0x41, 0x41, 0x7F, 0x00,
  0x04, 0x02, 0x01, 0x02, 0x04,
  0x40, 0x40, 0x40, 0x40, 0x40]

/-- The reduced 3×8 font `OLED_FONT` of
src/software/TinyOLEDdemo_t10_bignumbers/main.c: 20 glyphs of 3 column
bytes each (digits 0..15, then `.`, `:`, `-`, blank). -/
def OLED_FONT : List Nat := [
  0x7F, 0x41, 0x7F,
  0x00, 0x00, 0x7F,
  0x79, 0x49, 0x4F,
  0x41, 0x49, 0x7F,
  0x0F, 0x08, 0x7E,
  0x4F, 0x49, 0x79,
  0x7F, 0x49, 0x79,
  0x03, 0x01, 0x7F,
  0x7F, 0x49, 0x7F,
  0x4F, 0x49, 0x7F,
  0x7F, 0x09, 0x7F,
  0x7F, 0x48, 0x78,
  0x7F, 0x41, 0x63,
  0x78, 0x48, 0x7F,
  0x7F, 0x49, 0x41,
  0x7F, 0x09, 0x01,
  0x00, 0x60, 0x00,
  0x00, 0x36, 0x00,
  0x08, 0x08, 0x08,
  0x00, 0x00, 0x00]

/-- Byte-level events of an OLED transaction: one per `I2C_start`,
`I2C_write`, `I2C_stop` call the OLED functions make. -/
inductive Evt where
  | startE
  | byteE (b : Nat)
  | stopE
deriving DecidableEq, Repr

/-- The `OLED_ADDR`, the OLED write address `0x78` (both sources). -/
def OLED_ADDR : Nat := 0x78

/-- The `OLED_cursor(xpos, ypos)` of src/software/main.c: one command-mode
transaction carrying the low column nibble, `0x10 |` high column nibble
and `0xB0 |` page. -/
def OLED_cursor (xpos ypos : Nat) : List Evt :=
  [.startE, .byteE OLED_ADDR, .byteE 0x00,
   .byteE (xpos &&& 0x0F), .byteE (0x10 ||| (xpos >>> 4)),
   .byteE (0xB0 ||| (ypos &&& 0x07)), .stopE]

/-- The zero-fill loop of `OLED_clear`, `for(uint16_t i=512; i; i--)
I2C_write(0x00)`, generalised over the loop counter. -/
def clearLoop : Nat → List Evt
  | 0 => []
  | i + 1 => Evt.byteE 0x00 :: clearLoop i

/-- The `OLED_clear` of src/software/main.c: cursor to the origin, then one
data-mode transaction writing 512 zero bytes. -/
def OLED_clear : List Evt :=
  OLED_cursor 0 0
    ++ [.startE, .byteE OLED_ADDR, .byteE 0x40]
    ++ clearLoop 512 ++ [.stopE]

/-- The font offset `uint16_t offset = (ch - 32) * 5` of `OLED_printC`:
`ch` is promoted to `int`, and the product is converted to `uint16_t`,
i.e. reduced modulo 65536. -/
def printCOffset (ch : Int) : Nat := (((ch - 32) * 5) % 65536).toNat

/-- The `OLED_printC(ch)` of src/software/main.c, as the bytes it passes to
`I2C_write`: one zero spacer byte, then the 5 font bytes at
`offset .. offset+4` (the `offset++` increment is 16-bit). There is no
bounds check: out-of-table indices are modelled by `List.getD`'s default. -/
def OLED_printC (ch : Int) : List Nat :=
  0x00 :: (List.range 5).map (fun k => OLED_font.getD ((printCOffset ch + k) % 65536) 0)

/-- The `while (ch != 0)` loop of `OLED_printP` over the program-memory
string: print each character until the terminator. The argument is the
list of bytes in program memory at the string's address (an exhausted
list models reaching the end of memory). -/
def printPLoop : List Int → List Nat
  | [] => []
  | ch :: rest => if ch = 0 then [] else OLED_printC ch ++ printPLoop rest

/-- The `OLED_printP(p)` of src/software/main.c: one data-mode transaction
around the character loop. -/
def OLED_printP (p : List Int) : List Evt :=
  [.startE, .byteE OLED_ADDR, .byteE 0x40]
    ++ (printPLoop p).map Evt.byteE ++ [.stopE]

/-- The `OLED_stretch(b)` of src/software/TinyOLEDdemo_t10_bignumbers/main.c:
split the 2 LSB into the two nibbles, then double the bits twice. All
intermediate values are `uint8_t`, hence the reductions modulo 256. -/
def OLED_stretch (b : Nat) : Nat :=
  let b1 := ((((b &&& 2) <<< 3) % 256) ||| (b &&& 1)) % 256
  let b2 := (b1 ||| ((b1 <<< 1) % 256)) % 256
  (b2 ||| ((b2 <<< 2) % 256)) % 256

/-- The stretch loop of `OLED_printD`,
`for(j=0; j<4; j++, b >>= 2) sb[j] = OLED_stretch(b)`: the four stretched
bytes obtained from the four 2-bit groups of the source byte. -/
def stretchRow (b : Nat) : List Nat :=
  (List.range 4).map (fun j => OLED_stretch (b >>> (2 * j)))

/-- The `ch += ch << 1` of `OLED_printD`: the font offset, in `uint8_t`
arithmetic. -/
def printDOffset (ch : Nat) : Nat := (ch + ((ch <<< 1) % 256)) % 256

/-- The `OLED_printD(ch)` of src/software/TinyOLEDdemo_t10_bignumbers/main.c,
as the bytes it passes to `I2C_write`: 8 zero spacer bytes, then for each
of the 3 font bytes (read at the post-increment `uint8_t` offset) the 4
stretched bytes, the whole column group written 4 times in the
x-direction — 6 times for the middle byte (`i == 2` in the downward
loop). -/
def OLED_printD (ch : Nat) : List Nat :=
  List.replicate 8 0x00
    ++ (List.range 3).flatMap (fun t =>
      let b := OLED_FONT.getD ((printDOffset ch + t) % 256) 0
      let sb := stretchRow b
      let reps := if t = 1 then 6 else 4
      (List.replicate reps sb).flatMap id)

/-- The line-transition sequence the spec prescribes for `writeByte`: 8
repetitions of (data LOW, data released HIGH when bit `(b << i) & 0x80` is
set, clock HIGH, clock LOW) — MSB first — then (data release, clock HIGH,
clock LOW) for the 9th (ACK) pulse. Written from the spec's words, to be
compared with `I2C_write`. -/
def writeByteSpec (b : Nat) : List Prim :=
  (List.range 8).flatMap (fun i =>
    [Prim.sdaLow]
      ++ (if (b <<< i) &&& 0x80 ≠ 0 then [Prim.sdaHigh] else [])
      ++ [Prim.sclHigh, Prim.sclLow])
  ++ [.sdaHigh, .sclHigh, .sclLow]

/-- The per-source-byte column group under the claim's words taken as
stated: the stretch function applied only twice — to the low 2 bits, then
to the next 2 bits obtained by shifting. To be compared with
`stretchRow`. -/
def claimRowTwice (b : Nat) : List Nat :=
  [OLED_stretch b, OLED_stretch (b >>> 2)]

/-- The `OLED_printD` as it would be if the renderer applied the stretch
function only twice, as the claim states, everything else per the claim
(4 or 6 horizontal repeats, 8 zero spacers). -/
def printDClaimTwice (ch : Nat) : List Nat :=
  List.replicate 8 0x00
    ++ (List.range 3).flatMap (fun t =>
      let sb := claimRowTwice (OLED_FONT.getD ((printDOffset ch + t) % 256) 0)
      (List.replicate (if t = 1 then 6 else 4) sb).flatMap id)

/-- The per-source-byte column group per the amended claim: the stretch
function applied four times, once per 2-bit group `(b >> 2*j) & 3` of the
source byte, j = 0..3. -/
def specRow (b : Nat) : List Nat :=
  (List.range 4).map (fun j => OLED_stretch ((b >>> (2 * j)) &&& 3))

/-- The amended-claim rendering of a big digit: 8 zero spacer bytes, then
per source byte (looked up at offset `3 * ch`) the 4 stretched bytes,
repeated 4 times horizontally — 6 times for the middle source byte. -/
def printDSpec (ch : Nat) : List Nat :=
  List.replicate 8 0x00
    ++ (List.range 3).flatMap (fun t =>
      (List.replicate (if t = 1 then 6 else 4)
        (specRow (OLED_FONT.getD (3 * ch + t) 0))).flatMap id)

/-- The three cascaded 8-bit counters `counter_a`, `counter_b`,
`counter_c` of the bignumbers demo's `main`. -/
structure Counters where
  a : Nat
  b : Nat
  c : Nat
deriving DecidableEq, Repr

/-- One pass of the counter-update block of the bignumbers `main` loop:
`counter_a++; if(!counter_a) { counter_b++; if (!counter_b) counter_c++; }`
— all three variables are `uint8_t`, so each increment is modulo 256. -/
def counterStep (s : Counters) : Counters :=
  let a := (s.a + 1) % 256
  if a = 0 then
    let b := (s.b + 1) % 256
    { a := a, b := b, c := if b = 0 then (s.c + 1) % 256 else s.c }
  else
    { s with a := a }

/-- The engine invariant behind the open-drain discipline: the `PORTB`
bits of both I2C pins stay clear, so a pin in output mode always drives
LOW, never HIGH. -/
def portClear (s : RegState) : Prop :=
  s.PORTB.testBit I2C_SDA = false ∧ s.PORTB.testBit I2C_SCL = false

/-- All register states visited while running a list of engine operations
after `I2C_init`, from an arbitrary power-on state. -/
def engineStates (ops : List Op) (s0 : RegState) : List RegState :=
  statesOf (ops.flatMap opPrims) (runPrims I2C_init s0)

/-- A program-memory byte interpreted as an AVR `char` (signed 8-bit), the
type `OLED_printC` receives. -/
def charVal (b : Nat) : Int :=
  if b < 128 then (b : Int) else (b : Int) - 256

lemma clearLoop_eq_replicate (n : Nat) :
    clearLoop n = List.replicate n (Evt.byteE 0x00) := by
  induction n with
  | zero => rfl
  | succ n ih => simp [clearLoop, ih, List.replicate_succ]

lemma counterStep_no_wrap (k b c : Nat) (h : k < 255) :
    counterStep ⟨k, b, c⟩ = ⟨k + 1, b, c⟩ := by
  have h1 : (k + 1) % 256 = k + 1 := Nat.mod_eq_of_lt (by omega)
  simp [counterStep, h1]

lemma counterStep_iterate (b c k : Nat) (h : k ≤ 255) :
    counterStep^[k] ⟨0, b, c⟩ = ⟨k, b, c⟩ := by
  induction k with
  | zero => rfl
  | succ n ih =>
    rw [Function.iterate_succ_apply', ih (by omega)]
    exact counterStep_no_wrap n b c (by omega)

/-- C2: for every 2-bit input, `OLED_stretch` replicates input bit 0
across the low 4 output bits and input bit 1 across the high 4 output
bits; in particular `stretch 1 = 0x0F`, `stretch 2 = 0xF0`,
`stretch 3 = 0xFF`, `stretch 0 = 0x00`. -/
theorem C2_stretch_replicates (b : Nat) (hb : b < 4) :
    (∀ k, k < 4 →
      ((OLED_stretch b).testBit k = b.testBit 0
        ∧ (OLED_stretch b).testBit (4 + k) = b.testBit 1))
    ∧ OLED_stretch 0 = 0x00 ∧ OLED_stretch 1 = 0x0F
    ∧ OLED_stretch 2 = 0xF0 ∧ OLED_stretch 3 = 0xFF := by
  revert b; decide

/-- Witness for C2 at the claim's highlighted input `b = 1` (bit0 = 1,
bit1 = 0): low 4 output bits all 1, next 4 all 0. -/
theorem C2_stretch_replicates_witness :
    (∀ k, k < 4 →
      ((OLED_stretch 1).testBit k = (1 : Nat).testBit 0
        ∧ (OLED_stretch 1).testBit (4 + k) = (1 : Nat).testBit 1))
    ∧ OLED_stretch 0 = 0x00 ∧ OLED_stretch 1 = 0x0F
    ∧ OLED_stretch 2 = 0xF0 ∧ OLED_stretch 3 = 0xFF :=
  C2_stretch_replicates 1 (by decide)

/-- C9: the big-digit font offset of digit value 0 is `0 * 3`, and the 3
compact glyph bytes found there are `{0x7F, 0x41, 0x7F}`, before any
stretching. -/
theorem C9_digit0_glyph :
    printDOffset 0 = 0 * 3
    ∧ (List.range 3).map (fun k => OLED_FONT.getD (0 * 3 + k) 0)
        = [0x7F, 0x41, 0x7F] := by
  decide

/-- C6: `OLED_clear` first resets the cursor to column 0, page 0, then in
a single transaction selects data mode (`0x40` after the address byte),
emits exactly 512 zero bytes and closes the transaction. -/
theorem C6_clear_trace :
    OLED_clear
      = OLED_cursor 0 0
        ++ ([Evt.startE, Evt.byteE OLED_ADDR, Evt.byteE 0x40]
          ++ List.replicate 512 (Evt.byteE 0x00) ++ [Evt.stopE])
    ∧ OLED_cursor 0 0
      = [Evt.startE, Evt.byteE 0x78, Evt.byteE 0x00, Evt.byteE 0x00,
         Evt.byteE 0x10, Evt.byteE 0xB0, Evt.stopE] := by
  refine ⟨?_, by decide⟩
  rw [OLED_clear, clearLoop_eq_replicate]
  simp only [List.append_assoc]

/-- C7: rendering the string made of character codes 65 ('A'), 33 ('!')
and the 0 terminator emits, inside one data-mode transaction, 1 zero
spacer byte, the 5 font bytes at offset `(65-32)*5 = 165`, 1 zero spacer
byte and the 5 font bytes at offset `(33-32)*5 = 5` — 12 glyph-stream
bytes in total; characters are consumed in order and rendering stops at
the 0 terminator. -/
theorem C7_print_A_bang :
    OLED_printP [65, 33, 0]
      = [Evt.startE, Evt.byteE OLED_ADDR, Evt.byteE 0x40]
        ++ ((0x00 :: (List.range 5).map (fun k => OLED_font.getD (165 + k) 0))
          ++ (0x00 :: (List.range 5).map (fun k => OLED_font.getD (5 + k) 0))).map Evt.byteE
        ++ [Evt.stopE]
    ∧ (printPLoop [65, 33, 0]).length = 12
    ∧ printCOffset 65 = 165 ∧ printCOffset 33 = 5
    ∧ ∀ rest : List Int, printPLoop (0 :: rest) = [] := by
  refine ⟨by decide, by decide, by decide, by decide, fun rest => rfl⟩

/-- C3 counterexample: the claim says the renderer applies the stretch
function twice per source byte to obtain the stretched column group; the
stretch loop of `OLED_printD` actually applies it four times, so already
for digit 0 the claimed rendering differs from the code's. -/
theorem C3_counterexample :
    stretchRow (OLED_FONT.getD 0 0) ≠ claimRowTwice (OLED_FONT.getD 0 0)
    ∧ OLED_printD 0 ≠ printDClaimTwice 0 := by
  decide

/-- C3 (amended): per source byte of a big digit's glyph the renderer
applies the stretch function four times — to the 2-bit groups
`(b >> 2*j) & 3`, j = 0..3, reached by shifting — yielding 4 stretched
bytes, which are emitted 4 times horizontally (6 times for the middle of
the 3 source bytes), each digit preceded by 8 zero spacer bytes. -/
theorem C3_printD_structure (ch : Nat) (h : ch < 20) :
    OLED_printD ch = printDSpec ch := by
  revert ch; decide

/-- Witness for C3 at digit value 7. -/
theorem C3_printD_structure_witness : OLED_printD 7 = printDSpec 7 :=
  C3_printD_structure 7 (by decide)

/-- C8: incrementing the low 8-bit counter from 0xFF wraps it to 0x00 and
increments the next counter exactly once, with the same carry rule from
the second to the third counter; over a full 0–255 cycle the low counter
returns to 0 and the next counter has increased exactly once, with no
increment at any intermediate step. -/
theorem C8_counter_carry (b c : Nat) :
    counterStep ⟨255, b, c⟩
        = ⟨0, (b + 1) % 256, if (b + 1) % 256 = 0 then (c + 1) % 256 else c⟩
    ∧ (∀ k, k ≤ 255 → counterStep^[k] ⟨0, b, c⟩ = ⟨k, b, c⟩)
    ∧ counterStep^[256] ⟨0, b, c⟩
        = ⟨0, (b + 1) % 256, if (b + 1) % 256 = 0 then (c + 1) % 256 else c⟩ := by
  refine ⟨by norm_num [counterStep], fun k hk => counterStep_iterate b c k hk, ?_⟩
  rw [show (256 : Nat) = 255 + 1 from rfl, Function.iterate_succ_apply',
    counterStep_iterate b c 255 (by omega)]
  norm_num [counterStep]

/-- Witness for C8: the inner no-intermediate-increment fact instantiated
at k = 100 from counters (0, 9, 4). -/
theorem C8_counter_carry_witness : counterStep^[100] ⟨0, 9, 4⟩ = ⟨100, 9, 4⟩ :=
  (C8_counter_carry 9 4).2.1 100 (by decide)

set_option maxRecDepth 2000 in
/-- C1: for every byte, `I2C_write` emits exactly the spec's
line-transition sequence — 8 repetitions of (data LOW, data released HIGH
when bit `(b << i) & 0x80` is set, clock HIGH, clock LOW), MSB first,
then (data release, clock HIGH, clock LOW) for the 9th (ACK) pulse — and
never samples the data line (`sdaRead` does not occur), so the ACK/NACK
value is discarded with no failure path. -/
theorem C1_write_trace (b : Nat) (hb : b < 256) :
    I2C_write b = writeByteSpec b ∧ Prim.sdaRead ∉ I2C_write b := by
  revert b; decide

/-- Witness for C1 at byte 0xA5. -/
theorem C1_write_trace_witness :
    I2C_write 0xA5 = writeByteSpec 0xA5 ∧ Prim.sdaRead ∉ I2C_write 0xA5 :=
  C1_write_trace 0xA5 (by decide)

set_option maxRecDepth 4000 in
/-- C10: the text font table has 320 bytes, and for every program-memory
byte (interpreted as the AVR's signed `char`) all five font indices
computed by the unchecked `OLED_printC` offset arithmetic are in bounds
exactly when the character code lies in 32..95. -/
theorem C10_font_bounds :
    OLED_font.length = 320
    ∧ ∀ b, b < 256 →
        ((32 ≤ charVal b ∧ charVal b ≤ 95) ↔
          ∀ k, k < 5 → (printCOffset (charVal b) + k) % 65536 < 320) := by
  constructor
  · rfl
  · decide

/-- Witness for C10 at character code 65 ('A'). -/
theorem C10_font_bounds_witness :
    (32 ≤ charVal 65 ∧ charVal 65 ≤ 95) ↔
      ∀ k, k < 5 → (printCOffset (charVal 65) + k) % 65536 < 320 :=
  C10_font_bounds.2 65 (by decide)

lemma applyPrim_portClear (p : Prim) (s : RegState) (h : portClear s) :
    portClear (applyPrim p s) := by
  cases p <;>
    simp [applyPrim, portClear, I2C_SDA, I2C_SCL, Nat.testBit_land,
      (by decide : Nat.testBit 250 0 = false),
      (by decide : Nat.testBit 250 2 = false)] at h ⊢ <;>
    simp [h.1, h.2]

lemma statesOf_portClear (ps : List Prim) (s : RegState) (h : portClear s) :
    ∀ t ∈ statesOf ps s, portClear t := by
  induction ps generalizing s with
  | nil =>
    intro t ht
    simp [statesOf] at ht
    subst ht
    exact h
  | cons p ps ih =>
    intro t ht
    rw [statesOf, List.scanl_cons] at ht
    rcases List.mem_cons.mp ht with h1 | h2
    · subst h1; exact h
    · exact ih (applyPrim p s) (applyPrim_portClear p s h) t h2

/-- C5: starting from any power-on register state, after `I2C_init` every
state reached by any sequence of engine operations (init, start, stop,
write, read) leaves both I2C lines undriven-HIGH: each pin is either
driven LOW or released to float, never driven HIGH directly. -/
theorem C5_open_drain (s0 : RegState) (ops : List Op) :
    ∀ s ∈ engineStates ops s0,
      drivesHighB s I2C_SDA = false ∧ drivesHighB s I2C_SCL = false := by
  intro s hs
  have hinit : portClear (runPrims I2C_init s0) := by
    simp [runPrims, I2C_init, applyPrim, portClear, I2C_SDA, I2C_SCL,
      Nat.testBit_land,
      (by decide : Nat.testBit 250 0 = false),
      (by decide : Nat.testBit 250 2 = false)]
  have hp := statesOf_portClear (ops.flatMap opPrims) (runPrims I2C_init s0) hinit s hs
  exact ⟨by simp [drivesHighB, hp.1], by simp [drivesHighB, hp.2]⟩

/-- Witness for C5: the state right after `I2C_init` from the all-ones
power-on state, within a start–write–stop transaction. -/
theorem C5_open_drain_witness :
    drivesHighB ⟨250, 250⟩ I2C_SDA = false ∧ drivesHighB ⟨250, 250⟩ I2C_SCL = false :=
  C5_open_drain ⟨255, 255⟩ [Op.start, Op.write 165, Op.stop] ⟨250, 250⟩ (by decide)

/-- C4: running `I2C_start` immediately followed by `I2C_stop` from the
idle bus (any state, after `I2C_init`) produces the line-level sequence
(SDA, SCL) = (H,H), (L,H), (L,L), (L,L), (L,H), (H,H): SDA falls while
SCL is HIGH and then SCL falls (a valid START), then SCL is released HIGH
while SDA is LOW and SDA is released HIGH while SCL is HIGH (a valid
STOP). The trace is exactly the START pattern followed by the STOP
pattern — no action lies between the two framing events, SCL rises only
once (inside the STOP) and never falls again, so there is no clock pulse
and no byte is transmitted between them. -/
theorem C4_start_then_stop (s0 : RegState) :
    (statesOf (I2C_start ++ I2C_stop) (runPrims I2C_init s0)).map
        (fun s => (lineLevel s I2C_SDA, lineLevel s I2C_SCL))
      = [(true, true), (false, true), (false, false),
         (false, false), (false, true), (true, true)]
    ∧ I2C_start ++ I2C_stop
      = [Prim.sdaLow, Prim.sclLow] ++ [Prim.sdaLow, Prim.sclHigh, Prim.sdaHigh] := by
  constructor
  · simp [statesOf, I2C_start, I2C_stop, I2C_init, runPrims, applyPrim,
      lineLevel, I2C_SDA, I2C_SCL, List.scanl, Nat.testBit_land, Nat.testBit_lor,
      (by decide : Nat.testBit 250 0 = false),
      (by decide : Nat.testBit 250 2 = false),
      (by decide : Nat.testBit 254 0 = false),
      (by decide : Nat.testBit 254 2 = true),
      (by decide : Nat.testBit 251 0 = true),
      (by decide : Nat.testBit 251 2 = false),
      (by decide : Nat.testBit 1 0 = true),
      (by decide : Nat.testBit 1 2 = false),
      (by decide : Nat.testBit 4 0 = false),
      (by decide : Nat.testBit 4 2 = true)]
  · decide
